import Mathlib

/-!
Shallow embedding of the sphinx-immaterial C++ fixture sources:
  docs/cpp_apigen_demo/array.h, index_interval.h, fake_stdlib.h
  tests/issue_134/sphinx-immaterial-pybind11-issue-134/sphinx_immaterial_pybind11_issue_134.cpp
-/

namespace SphinxImmaterial

/-- Embeds `struct Example` from sphinx_immaterial_pybind11_issue_134.cpp:
a single `const bool is_set_by_init` field. -/
structure Example where
  is_set_by_init : Bool
deriving DecidableEq, Repr

/-- Embeds the default constructor `Example() : is_set_by_init(false) {}`. -/
def Example.initDefault : Example := { is_set_by_init := false }

/-- Embeds `Example(const bool value) : is_set_by_init(value) {}`. -/
def Example.initValue (value : Bool) : Example := { is_set_by_init := value }

/-- Embeds the lambda `[](Example& self, int x) { return 1; }` bound as the
`int` overload of `foo`.  `self` is taken by mutable reference, so the
embedding threads it as state; the body never touches it. -/
def foo_int (self : Example) (x : Int) : Int × Example := (1, self)

/-- Embeds the lambda `[](Example& self, bool x) { return 1; }` bound as the
`bool` overload of `foo`. -/
def foo_bool (self : Example) (x : Bool) : Int × Example := (1, self)

/-- Embeds the getter lambda `[](const Example& self) -> int { return 42; }`
bound as the read-only property `no_signature`. -/
def no_signature (self : Example) : Int := 42

/-- Embeds the read-only field access `def_readonly("is_set_by_init",
&Example::is_set_by_init)`. -/
def is_set_by_init_get (self : Example) : Bool := self.is_set_by_init

/-- The two constructor overloads registered with `py::init<>()` and
`py::init<const bool>()`. -/
inductive CtorOverload
  | defaultCtor
  | fromBool
deriving DecidableEq, Repr

/-- The two overloads registered under the method name `foo`. -/
inductive FooOverload
  | intArg
  | boolArg
deriving DecidableEq, Repr

/-- A class attribute as registered on the pybind11 class object `cls`. -/
inductive PyAttrVal
  | initMethod (ovs : List CtorOverload)
  | propNoSignature
  | method (ovs : List FooOverload)
  | readonlyIsSetByInit
deriving DecidableEq, Repr

/-- The attribute table of the class object, in insertion order. -/
abbrev AttrTable := List (String × PyAttrVal)

/-- Attribute lookup, `cls.attr(name)`. -/
def getAttr : AttrTable → String → Option PyAttrVal
  | [], _ => none
  | (k, v) :: rest, name => if k = name then some v else getAttr rest name

/-- Attribute assignment, `cls.attr(name) = v`. -/
def setAttr : AttrTable → String → PyAttrVal → AttrTable
  | [], name, v => [(name, v)]
  | (k, w) :: rest, name, v =>
    if k = name then (name, v) :: rest else (k, w) :: setAttr rest name v

/-- `cls.def(py::init<...>(), ...)`: pybind11 appends the constructor
overload to the existing `__init__`, or creates it. -/
def defInitOverload (t : AttrTable) (ov : CtorOverload) : AttrTable :=
  match getAttr t "__init__" with
  | some (PyAttrVal.initMethod ovs) =>
      setAttr t "__init__" (PyAttrVal.initMethod (ovs ++ [ov]))
  | _ => setAttr t "__init__" (PyAttrVal.initMethod [ov])

/-- `cls.def(name, fn, ...)`: pybind11 appends the overload to an existing
method of the same name, or creates the method. -/
def defMethodOverload (t : AttrTable) (name : String) (ov : FooOverload) : AttrTable :=
  match getAttr t name with
  | some (PyAttrVal.method ovs) => setAttr t name (PyAttrVal.method (ovs ++ [ov]))
  | _ => setAttr t name (PyAttrVal.method [ov])

/-- `cls.attr(dst) = cls.attr(src)`: copies the current value of `src`. -/
def copyAttr (t : AttrTable) (dst src : String) : AttrTable :=
  match getAttr t src with
  | some v => setAttr t dst v
  | none => t

/-- Embeds the body of `PYBIND11_MODULE(sphinx_immaterial_pybind11_issue_134, m)`:
the registration calls on `cls` in source order. -/
def moduleInit : AttrTable :=
  let t : AttrTable := []
  let t := defInitOverload t CtorOverload.defaultCtor
  let t := defInitOverload t CtorOverload.fromBool
  let t := setAttr t "no_signature" PyAttrVal.propNoSignature
  let t := defMethodOverload t "foo" FooOverload.intArg
  let t := defMethodOverload t "foo" FooOverload.boolArg
  let t := copyAttr t "bar" "foo"
  let t := setAttr t "is_set_by_init" PyAttrVal.readonlyIsSetByInit
  t

/-- An argument passed to `foo`: either a Python `int` or a Python `bool`. -/
abbrev FooArg := Int ⊕ Bool

/-- One overload applied to one argument: succeeds only on a type match. -/
def applyFooOverload : FooOverload → Example → FooArg → Option (Int × Example)
  | FooOverload.intArg, self, Sum.inl x => some (foo_int self x)
  | FooOverload.boolArg, self, Sum.inr b => some (foo_bool self b)
  | _, _, _ => none

/-- pybind11 overload dispatch: try each registered overload in order. -/
def dispatchFoo : List FooOverload → Example → FooArg → Option (Int × Example)
  | [], _, _ => none
  | ov :: rest, self, arg =>
    match applyFooOverload ov self arg with
    | some r => some r
    | none => dispatchFoo rest self arg

/-- An argument to `__init__`: no argument, or one `bool`. -/
abbrev InitArg := Unit ⊕ Bool

/-- One constructor overload applied to one argument list. -/
def applyCtorOverload : CtorOverload → InitArg → Option Example
  | CtorOverload.defaultCtor, Sum.inl _ => some Example.initDefault
  | CtorOverload.fromBool, Sum.inr v => some (Example.initValue v)
  | _, _ => none

/-- Constructor overload dispatch, in registration order. -/
def dispatchInit : List CtorOverload → InitArg → Option Example
  | [], _ => none
  | ov :: rest, arg =>
    match applyCtorOverload ov arg with
    | some r => some r
    | none => dispatchInit rest arg

/-- Calling an attribute value as a method. -/
def callMethodAttr : PyAttrVal → Example → FooArg → Option (Int × Example)
  | PyAttrVal.method ovs, self, arg => dispatchFoo ovs self arg
  | _, _, _ => none

/-- Calling a named attribute on a receiver, e.g. `obj.foo(x)`. -/
def callByName (t : AttrTable) (name : String) (self : Example) (arg : FooArg) :
    Option (Int × Example) :=
  match getAttr t name with
  | some v => callMethodAttr v self arg
  | none => none

/-- Constructing an instance through the registered `__init__`. -/
def callInit (t : AttrTable) (arg : InitArg) : Option Example :=
  match getAttr t "__init__" with
  | some (PyAttrVal.initMethod ovs) => dispatchInit ovs arg
  | _ => none

/-! ## fake_stdlib.h -/

/-- Embeds `template <bool Condition, typename T = void> using enable_if_t = T;`
from fake_stdlib.h: the condition is ignored. -/
def enable_if_t (Condition : Bool) (T : Type) : Type := T

/-- Embeds `template <typename T, typename U> constexpr inline bool
is_convertible_v = true;` from fake_stdlib.h. -/
def is_convertible_v (T U : Type) : Bool := true

/-- The default template argument of Array's converting constructor:
`std::enable_if_t<std::is_convertible_v<U (*)[], T (*)[]>>` (default `void`,
modelled as `Unit`).  `U` and `T` stand for the pointer-to-array types. -/
def convertCtorSfinae (U T : Type) : Type := enable_if_t (is_convertible_v U T) Unit

/-- The default template argument of `Array::operator[](int)`:
`std::enable_if_t<SfinaeRank == 1>` (default `void`, modelled as `Unit`). -/
def subscriptIntSfinae (SfinaeRank : Int) : Type :=
  enable_if_t (SfinaeRank == 1) Unit

/-! ## Declaration inventory of the four source files -/

/-- The four source files of the repository. -/
inductive SrcFile
  | arrayH
  | indexIntervalH
  | fakeStdlibH
  | issue134Cpp
deriving DecidableEq, Repr

/-- One function declaration of the repository, with whether any function
body for it appears anywhere in the repository. -/
structure DeclInfo where
  file : SrcFile
  name : String
  hasBody : Bool
deriving DecidableEq, Repr

/-- Every function declaration of the four source files, transcribed in
source order.  fake_stdlib.h declares no functions (only a class, a class
template, an alias template and a variable template). -/
def repoDecls : List DeclInfo := [
  ⟨SrcFile.arrayH, "operator<<(ostream&, DataOrder)", false⟩,
  ⟨SrcFile.arrayH, "Array::Array(T*, array<int,Rank>, DataOrder)", false⟩,
  ⟨SrcFile.arrayH, "Array::Array(const Array<U,Rank>&)", false⟩,
  ⟨SrcFile.arrayH, "Array::data", false⟩,
  ⟨SrcFile.arrayH, "Array::shape", false⟩,
  ⟨SrcFile.arrayH, "Array::order", false⟩,
  ⟨SrcFile.arrayH, "Array::operator[](int)", false⟩,
  ⟨SrcFile.arrayH, "Array::operator[](array<int,Rank>)", false⟩,
  ⟨SrcFile.indexIntervalH, "IndexInterval::IndexInterval(int,int)", false⟩,
  ⟨SrcFile.indexIntervalH, "operator<<(ostream&, IndexInterval)", false⟩,
  ⟨SrcFile.indexIntervalH, "IndexInterval::lower", false⟩,
  ⟨SrcFile.indexIntervalH, "IndexInterval::upper", false⟩,
  ⟨SrcFile.indexIntervalH, "Union", false⟩,
  ⟨SrcFile.issue134Cpp, "Example::Example()", true⟩,
  ⟨SrcFile.issue134Cpp, "Example::Example(const bool)", true⟩,
  ⟨SrcFile.issue134Cpp, "lambda no_signature getter", true⟩,
  ⟨SrcFile.issue134Cpp, "lambda foo(int)", true⟩,
  ⟨SrcFile.issue134Cpp, "lambda foo(bool)", true⟩,
  ⟨SrcFile.issue134Cpp, "PYBIND11_MODULE init", true⟩
]

/-- The declarations of the two cpp_apigen_demo headers. -/
def apigenDemoDecls : List DeclInfo :=
  repoDecls.filter fun d =>
    d.file = SrcFile.arrayH ∨ d.file = SrcFile.indexIntervalH

/-- The six function bodies that the repository does implement, all in the
issue_134 pybind11 fixture. -/
def fixtureBodies : List DeclInfo := [
  ⟨SrcFile.issue134Cpp, "Example::Example()", true⟩,
  ⟨SrcFile.issue134Cpp, "Example::Example(const bool)", true⟩,
  ⟨SrcFile.issue134Cpp, "lambda no_signature getter", true⟩,
  ⟨SrcFile.issue134Cpp, "lambda foo(int)", true⟩,
  ⟨SrcFile.issue134Cpp, "lambda foo(bool)", true⟩,
  ⟨SrcFile.issue134Cpp, "PYBIND11_MODULE init", true⟩
]

/-! ## Theorems -/

/-- C1 counterexample: the claim says no constructor of any declared type
defines an observable result, but Example's two constructors produce
observably different objects: `Example()` sets `is_set_by_init` to `false`
while `Example(true)` sets it to `true`. -/
theorem c1_counterexample :
    (Example.initValue true).is_set_by_init = true ∧
    Example.initDefault.is_set_by_init = false ∧
    (Example.initValue true == Example.initDefault) = false :=
  ⟨rfl, rfl, rfl⟩

/-- C1 (amended): every operation declared on Array, DataOrder and
IndexInterval has no implemented behavior, but Example's constructors do
define observable results: the default constructor sets `is_set_by_init`
to `false` and `Example(value)` sets it to `value`. -/
theorem c1_amended :
    (∀ d ∈ apigenDemoDecls, d.hasBody = false) ∧
    Example.initDefault.is_set_by_init = false ∧
    (∀ v : Bool, (Example.initValue v).is_set_by_init = v) :=
  ⟨by decide, rfl, fun _ => rfl⟩

/-- C1 witness: instantiates the amended claim at `Array::data`. -/
theorem c1_witness :
    (⟨SrcFile.arrayH, "Array::data", false⟩ : DeclInfo).hasBody = false :=
  c1_amended.1 ⟨SrcFile.arrayH, "Array::data", false⟩ (by decide)

/-- C2: every operation with a body is total and never signals an error:
constructing through the registered `__init__` succeeds for both argument
shapes, calling `foo` succeeds for every receiver and both argument types,
and the `no_signature` getter returns 42 unconditionally. -/
theorem c2_total_no_error :
    (∀ arg : InitArg, (callInit moduleInit arg).isSome = true) ∧
    (∀ (self : Example) (arg : FooArg),
      (callByName moduleInit "foo" self arg).isSome = true) ∧
    (∀ self : Example, no_signature self = 42) := by
  refine ⟨?_, ?_, ?_⟩
  · rintro (u | v) <;> rfl
  · rintro self (x | b) <;> rfl
  · intro self; rfl

/-- C3: the default constructor yields `is_set_by_init = false`,
`Example(value)` yields `is_set_by_init = value` for every bool, and no
later operation (any call of `foo` or of the aliased `bar`) ever changes
the field. -/
theorem c3_ctor_sets_field :
    Example.initDefault.is_set_by_init = false ∧
    (∀ v : Bool, (Example.initValue v).is_set_by_init = v) ∧
    (∀ (self : Example) (arg : FooArg),
      (callByName moduleInit "foo" self arg).map (fun p => (p.2).is_set_by_init)
        = some self.is_set_by_init) ∧
    (∀ (self : Example) (arg : FooArg),
      (callByName moduleInit "bar" self arg).map (fun p => (p.2).is_set_by_init)
        = some self.is_set_by_init) := by
  refine ⟨rfl, fun _ => rfl, ?_, ?_⟩
  · rintro self (x | b) <;> rfl
  · rintro self (x | b) <;> rfl

/-- C4: no operation mutates shared state: both `foo` overloads return the
receiver unchanged, and calling `foo` or the aliased `bar` through the
class attribute table leaves every field of the receiver unchanged (the
`no_signature` getter takes the receiver by const reference and is embedded
as a pure function). -/
theorem c4_frame :
    (∀ (self : Example) (x : Int), (foo_int self x).2 = self) ∧
    (∀ (self : Example) (b : Bool), (foo_bool self b).2 = self) ∧
    (∀ (self : Example) (arg : FooArg),
      (callByName moduleInit "foo" self arg).map Prod.snd = some self) ∧
    (∀ (self : Example) (arg : FooArg),
      (callByName moduleInit "bar" self arg).map Prod.snd = some self) := by
  refine ⟨fun _ _ => rfl, fun _ _ => rfl, ?_, ?_⟩
  · rintro self (x | b) <;> rfl
  · rintro self (x | b) <;> rfl

/-- C5: `Union` has no body in the repository, neither `operator[]`
overload has a body, and the only function bodies the repository implements
are the six trivial bodies of the issue_134 fixture — no binding-layer
machinery (pybind11 is an external include, not repository code). -/
theorem c5_only_fixture_bodies :
    (∀ d ∈ repoDecls, d.name = "Union" → d.hasBody = false) ∧
    (∀ d ∈ repoDecls,
      d.name = "Array::operator[](int)" ∨ d.name = "Array::operator[](array<int,Rank>)" →
      d.hasBody = false) ∧
    (∀ d ∈ repoDecls, d.hasBody = true → d ∈ fixtureBodies) := by
  refine ⟨?_, ?_, ?_⟩ <;> decide

/-- C5 witness: instantiates the claim at `Union`, at
`Array::operator[](int)` and at the default-constructor body. -/
theorem c5_witness :
    (⟨SrcFile.indexIntervalH, "Union", false⟩ : DeclInfo).hasBody = false ∧
    (⟨SrcFile.arrayH, "Array::operator[](int)", false⟩ : DeclInfo).hasBody = false ∧
    (⟨SrcFile.issue134Cpp, "Example::Example()", true⟩ : DeclInfo) ∈ fixtureBodies :=
  ⟨c5_only_fixture_bodies.1 ⟨SrcFile.indexIntervalH, "Union", false⟩ (by decide) rfl,
   c5_only_fixture_bodies.2.1 ⟨SrcFile.arrayH, "Array::operator[](int)", false⟩
     (by decide) (Or.inl rfl),
   c5_only_fixture_bodies.2.2 ⟨SrcFile.issue134Cpp, "Example::Example()", true⟩
     (by decide) rfl⟩

/-- C6: every function declared in the cpp_apigen_demo headers — the Array
constructors and member functions, the IndexInterval constructor and member
functions, `Union`, and both `operator<<` overloads — has no body anywhere
in the repository. -/
theorem c6_header_decls_stub :
    ∀ d ∈ apigenDemoDecls, d.hasBody = false := by decide

/-- C6 witness: instantiates the claim at the IndexInterval constructor. -/
theorem c6_witness :
    (⟨SrcFile.indexIntervalH, "IndexInterval::IndexInterval(int,int)", false⟩ :
      DeclInfo).hasBody = false :=
  c6_header_decls_stub ⟨SrcFile.indexIntervalH, "IndexInterval::IndexInterval(int,int)", false⟩
    (by decide)

/-- C7: under fake_stdlib.h, `enable_if_t` ignores its condition and
`is_convertible_v` is `true` for every pair of types, so the SFINAE default
argument of the converting constructor is well-formed (equals `Unit`,
the model of `void`) for every element type, and that of
`operator[](int)` is well-formed for every rank, not only rank 1. -/
theorem c7_sfinae_always_enabled :
    (∀ (c : Bool) (T : Type), enable_if_t c T = T) ∧
    (∀ (T U : Type), is_convertible_v T U = true) ∧
    (∀ (U T : Type), convertCtorSfinae U T = Unit) ∧
    (∀ r : Int, subscriptIntSfinae r = Unit) :=
  ⟨fun _ _ => rfl, fun _ _ => rfl, fun _ _ => rfl, fun _ => rfl⟩

/-- C8: after module initialization the `bar` attribute holds the same
callable as `foo`, so calling `bar` gives the same result as calling `foo`
for every receiver and argument; each `foo` overload returns 1, and
`no_signature` returns 42, for every receiver. -/
theorem c8_bar_aliases_foo :
    getAttr moduleInit "bar" = getAttr moduleInit "foo" ∧
    (∀ (self : Example) (arg : FooArg),
      callByName moduleInit "bar" self arg = callByName moduleInit "foo" self arg) ∧
    (∀ (self : Example) (x : Int), (foo_int self x).1 = 1) ∧
    (∀ (self : Example) (b : Bool), (foo_bool self b).1 = 1) ∧
    (∀ self : Example, no_signature self = 42) := by
  refine ⟨rfl, ?_, fun _ _ => rfl, fun _ _ => rfl, fun _ => rfl⟩
  rintro self (x | b) <;> rfl

/-- C9 counterexample: the claim says no file defines code that executes
when the artifact is loaded, but the issue_134 translation unit defines the
`PYBIND11_MODULE` initialization body, which runs at module import and
registers a non-trivial attribute table. -/
theorem c9_counterexample :
    (⟨SrcFile.issue134Cpp, "PYBIND11_MODULE init", true⟩ : DeclInfo) ∈ repoDecls ∧
    getAttr moduleInit "foo"
      = some (PyAttrVal.method [FooOverload.intArg, FooOverload.boolArg]) ∧
    getAttr moduleInit "is_set_by_init" = some PyAttrVal.readonlyIsSetByInit := by
  refine ⟨by decide, rfl, rfl⟩

/-- C9 (amended): the cpp_apigen_demo headers define no executable code,
but the issue_134 translation unit defines the `PYBIND11_MODULE` entry
point, which executes at module load and produces exactly this attribute
table for the Example class. -/
theorem c9_amended :
    (∀ d ∈ repoDecls, d.file ≠ SrcFile.issue134Cpp → d.hasBody = false) ∧
    moduleInit = [
      ("__init__", PyAttrVal.initMethod [CtorOverload.defaultCtor, CtorOverload.fromBool]),
      ("no_signature", PyAttrVal.propNoSignature),
      ("foo", PyAttrVal.method [FooOverload.intArg, FooOverload.boolArg]),
      ("bar", PyAttrVal.method [FooOverload.intArg, FooOverload.boolArg]),
      ("is_set_by_init", PyAttrVal.readonlyIsSetByInit)] := by
  refine ⟨by decide, by decide⟩

/-- C9 witness: instantiates the amended claim at `IndexInterval::lower`. -/
theorem c9_witness :
    (⟨SrcFile.indexIntervalH, "IndexInterval::lower", false⟩ : DeclInfo).hasBody = false :=
  c9_amended.1 ⟨SrcFile.indexIntervalH, "IndexInterval::lower", false⟩ (by decide) (by decide)

end SphinxImmaterial
